import Mathlib

/-!
Verification of the `ask-github` agentic tool-use loop.

This file gives a shallow embedding of the repository's core Python code:
  * `src/ask_github/cli.py`       — `parse_llm_args`, the `--llm-*` passthrough parser;
  * `src/ask_github/github.py`    — `parse_repo_url`;
  * `src/ask_github/__init__.py`  — `_get_auth_token`, `_get_ref`, `execute_tool`,
    `execute_single_tool` and the agentic loop inside `ask`.

External collaborators (the LiteLLM completion endpoint, the platform
adapters' HTTP calls, `json.loads`/`json.dumps`, and the per-round
completion order of the thread pool's `as_completed`) are modelled as
oracle parameters bundled in an `Env` structure; Python exceptions are
modelled with `Except String`.
-/

namespace AskGithub

/-- JSON-like values, as far as the core code inspects them: the argument
objects decoded by `json.loads` and the adapters' results are only passed
around opaquely, except for the string/None values the dispatcher itself
inserts (`github_token`, `ref`). -/
inductive JValue where
  | null : JValue
  | bool (b : Bool) : JValue
  | int (n : Int) : JValue
  | str (s : String) : JValue
deriving DecidableEq, Repr

/-- A Python dict with string keys, as an association list in insertion
order with unique keys (the shape `json.loads` produces). -/
abbrev Dict (β : Type) := List (String × β)

/-- Python `k in d` for a dict. -/
def dictHasKey {β : Type} (k : String) : Dict β → Bool
  | [] => false
  | p :: t => if p.1 = k then true else dictHasKey k t

/-- Python `d.get(k)` for a dict: the value at `k`, if present. -/
def dictGet {β : Type} (k : String) : Dict β → Option β
  | [] => none
  | p :: t => if p.1 = k then some p.2 else dictGet k t

/-- Python `d[k] = v`: overwrite the entry if the key is present, else
append it (dict insertion-order semantics). -/
def dictSet {β : Type} (d : Dict β) (k : String) (v : β) : Dict β :=
  if dictHasKey k d then
    d.map (fun p => if p.1 = k then (k, v) else p)
  else
    d ++ [(k, v)]

/-- Argument objects handed to the tool dispatcher. -/
abbrev Args := Dict JValue

/-! ## CLI: `parse_llm_args` (cli.py) -/

/-- Python `s.replace(c, "", 1)` on a character list: remove the first
occurrence of `c`, if any. -/
def removeFirst (c : Char) : List Char → List Char
  | [] => []
  | x :: xs => if x = c then xs else x :: removeFirst c xs

/-- Python `str.isdigit()` on the ASCII strings reaching the CLI: true iff
the string is nonempty and all characters are decimal digits. -/
def pyIsdigit (l : List Char) : Bool :=
  !l.isEmpty && l.all Char.isDigit

/-- The numeric-detection test of `parse_llm_args` (cli.py line 32):
`value.replace(".", "", 1).replace("-", "", 1).isdigit()`. -/
def numericTest (value : String) : Bool :=
  pyIsdigit (removeFirst '-' (removeFirst '.' value.toList))

/-- Digit-list to number. -/
def digitsToNat (l : List Char) : Nat :=
  l.foldl (fun n c => n * 10 + (c.toNat - 48)) 0

/-- Modelled from Python's built-in `int(str)` (standard library, external
to the repository), on the ASCII strings reaching it here: an optional
leading minus sign followed by at least one digit; anything else raises
`ValueError`. -/
def pyInt (s : String) : Except String Int :=
  let cs := s.toList
  let (neg, digits) :=
    match cs with
    | '-' :: rest => (true, rest)
    | _ => (false, cs)
  if pyIsdigit digits then
    .ok (if neg then -(digitsToNat digits : Int) else (digitsToNat digits : Int))
  else
    .error ("invalid literal for int() with base 10: " ++ s)

/-- Modelled from Python's built-in `float(str)` (standard library,
external to the repository), on the plain decimal strings reaching it
here: an optional leading minus sign, digits, at most one dot, with at
least one digit overall; anything else raises `ValueError`.  The decimal
value is the exact rational `±(intpart.fracpart)`. -/
def pyFloat (s : String) : Except String ℚ :=
  let cs := s.toList
  let (neg, body) :=
    match cs with
    | '-' :: rest => (true, rest)
    | _ => (false, cs)
  let intPart := body.takeWhile (fun c => c ≠ '.')
  let rest := body.dropWhile (fun c => c ≠ '.')
  let fracPart :=
    match rest with
    | [] => []
    | _ :: tail => tail
  if intPart.all Char.isDigit && fracPart.all Char.isDigit &&
      (!intPart.isEmpty || !fracPart.isEmpty) &&
      !(rest.drop 1).any (fun c => c = '.') then
    let num : Int := (digitsToNat intPart) * (10 : Int) ^ fracPart.length + digitsToNat fracPart
    .ok (mkRat (if neg then -num else num) ((10 : Nat) ^ fracPart.length))
  else
    .error ("could not convert string to float: " ++ s)

/-- A typed value produced by the CLI `--llm-*` passthrough. -/
inductive LlmValue where
  | bool (b : Bool) : LlmValue
  | int (n : Int) : LlmValue
  | float (q : ℚ) : LlmValue
  | str (s : String) : LlmValue
deriving DecidableEq, Repr

/-- The per-invocation litellm configuration map. -/
abbrev LlmConfig := Dict LlmValue

/-- Python `str.lower()` on the ASCII strings reaching the CLI. -/
def pyLower (s : String) : String :=
  String.mk (s.toList.map Char.toLower)

/-- Python `c in s` for a single character `c`. -/
def pyContainsChar (s : String) (c : Char) : Bool :=
  s.toList.any (fun x => x = c)

/-- The value-conversion ladder of `parse_llm_args` (cli.py lines 27–39):
`"true"`/`"false"` (case-insensitive) become booleans, values passing the
numeric-detection test go through `float`/`int` (which may raise), and
everything else stays a string. -/
def convertValue (value : String) : Except String LlmValue :=
  if pyLower value = "true" then .ok (.bool true)
  else if pyLower value = "false" then .ok (.bool false)
  else if numericTest value then
    if pyContainsChar value '.' then
      match pyFloat value with
      | .ok q => .ok (.float q)
      | .error e => .error e
    else
      match pyInt value with
      | .ok n => .ok (.int n)
      | .error e => .error e
  else .ok (.str value)

/-- Python `s.startswith(p)`. -/
def pyStartswith (s p : String) : Bool :=
  p.toList.isPrefixOf s.toList

/-- Python `s[n:]`. -/
def pyDropChars (n : Nat) (s : String) : String :=
  String.mk (s.toList.drop n)

/-- The scanning loop of `parse_llm_args` (cli.py lines 17–48), carrying
the accumulated `filtered_argv` and `llm_config`.  A `--llm-<key>` flag
followed by a non-`--` value consumes both and records the converted
value; a `--llm-<key>` flag that is last or followed by a `--` argument
records `True` and consumes only itself; every other argument is passed
through to `filtered_argv`.  A `ValueError` from the numeric conversion
propagates (nothing catches it). -/
def parseLlmArgsGo : List String → List String → LlmConfig →
    Except String (List String × LlmConfig)
  | [], filtered, config => .ok (filtered, config)
  | [arg], filtered, config =>
    if pyStartswith arg "--llm-" then
      .ok (filtered, dictSet config (pyDropChars 6 arg) (.bool true))
    else
      .ok (filtered ++ [arg], config)
  | arg :: value :: rest, filtered, config =>
    if pyStartswith arg "--llm-" then
      if pyStartswith value "--" then
        parseLlmArgsGo (value :: rest) filtered
          (dictSet config (pyDropChars 6 arg) (.bool true))
      else
        match convertValue value with
        | .ok v => parseLlmArgsGo rest filtered (dictSet config (pyDropChars 6 arg) v)
        | .error e => .error e
    else
      parseLlmArgsGo (value :: rest) (filtered ++ [arg]) config

/-- Function `parse_llm_args(argv)` from cli.py: returns `(filtered_argv, llm_config)`. -/
def parse_llm_args (argv : List String) : Except String (List String × LlmConfig) :=
  parseLlmArgsGo argv [] []

/-! ## URL parsing and context resolution (github.py, __init__.py) -/

/-- Python `path.strip("/")`: drop leading and trailing slashes. -/
def stripSlashes (l : List Char) : List Char :=
  ((l.dropWhile (fun c => c = '/')).reverse.dropWhile (fun c => c = '/')).reverse

/-- Python `s.split("/")` on a character list: split at every slash,
keeping empty pieces; the empty string yields `[""]`. -/
def splitOnSlash : List Char → List (List Char)
  | [] => [[]]
  | x :: xs =>
    let r := splitOnSlash xs
    if x = '/' then [] :: r
    else
      match r with
      | [] => [[x]]
      | h :: t => (x :: h) :: t

/-- Function `parse_repo_url` from github.py.  The standard-library `urlparse` step
is external to the repository, so this takes the URL's path component
(e.g. `"/owner/repo/tree/dev"`) directly: strip slashes, split on `"/"`,
require at least owner and repo, and read an explicit ref from
`tree`/`blob`/`commit` URLs with at least four path parts. -/
def parse_repo_url (path : String) : Except String (String × String × Option String) :=
  let path_parts := (splitOnSlash (stripSlashes path.toList)).map String.mk
  match path_parts with
  | owner :: repo :: rest =>
    let ref : Option String :=
      match rest with
      | kind :: r :: _ =>
        if kind = "tree" ∨ kind = "blob" ∨ kind = "commit" then some r else none
      | _ => none
    .ok (owner, repo, ref)
  | _ => .error ("Invalid GitHub URL: " ++ path)

/-- Python truthiness of an optional string: `None` and `""` are falsy. -/
def truthyStr : Option String → Bool
  | none => false
  | some s => decide (s ≠ "")

/-- Function `_get_auth_token` from __init__.py: the explicit `token` if truthy,
else the legacy `github_token`, else the platform's environment variable
(whose value is modelled as the `envToken` argument). -/
def get_auth_token (token github_token envToken : Option String) : Option String :=
  let auth_token := if truthyStr token then token else github_token
  if truthyStr auth_token then auth_token else envToken

/-- The repository-metadata dictionary returned by `get_repo_info`, as far
as `_get_ref` reads it: its optional `default_branch` field. -/
structure RepoInfo where
  default_branch : Option String
deriving DecidableEq, Repr

/-- Function `_get_ref` from __init__.py.  `getRepoInfo` is the outcome of the
platform module's `get_repo_info` HTTP call (an external oracle).  Returns
the resolved ref together with the number of `get_repo_info` calls made:
a ref already present in the URL is returned as-is with no metadata call;
otherwise one metadata call is made and its `default_branch` (defaulting
to `"main"` when the field is absent) is used.  An HTTP error from the
metadata call propagates. -/
def get_ref (getRepoInfo : Except String RepoInfo) (ref : Option String) :
    Except String (String × Nat) :=
  match ref with
  | some r => .ok (r, 0)
  | none =>
    match getRepoInfo with
    | .ok repo_info => .ok (repo_info.default_branch.getD "main", 1)
    | .error e => .error e

/-! ## Tool dispatcher (`execute_tool`, __init__.py lines 180–211) -/

/-- The five fixed platform operations. -/
inductive ToolOp where
  | get_repo_info
  | read_file
  | list_directory
  | list_tree
  | search_code
deriving DecidableEq, Repr

/-- List `tools_with_ref` from `execute_tool`: the tools that accept a `ref`
parameter. -/
def toolsWithRef : List String := ["read_file", "list_directory", "list_tree"]

/-- The Python value stored by `tool_args["github_token"] = token`:
the token string, or `None`. -/
def tokenVal : Option String → JValue
  | some s => .str s
  | none => .null

/-- The argument-defaulting step of `execute_tool`:
`tool_args = {**arguments, "github_token": token}`, then, when the tool
accepts a ref, the model omitted `"ref"`, and `default_ref` is truthy,
`tool_args["ref"] = default_ref`. -/
def buildToolArgs (tool_name : String) (arguments : Args)
    (token : Option String) (default_ref : Option String) : Args :=
  let tool_args := dictSet arguments "github_token" (tokenVal token)
  if tool_name ∈ toolsWithRef ∧ dictHasKey "ref" arguments = false ∧ truthyStr default_ref then
    dictSet tool_args "ref" (.str (default_ref.getD ""))
  else
    tool_args

/-- Function `execute_tool` from __init__.py.  `module` is the platform module
chosen by `_get_module` (github or gitlab), modelled as an oracle mapping
each of the five operations and its keyword arguments to a result or a
raised error.  The name dispatch mirrors the if/elif chain; an unknown
name raises `ValueError(f"Unknown tool: {tool_name}")`. -/
def execute_tool (module : ToolOp → Args → Except String JValue)
    (tool_name : String) (arguments : Args)
    (token : Option String) (default_ref : Option String) : Except String JValue :=
  let tool_args := buildToolArgs tool_name arguments token default_ref
  if tool_name = "get_repo_info" then module .get_repo_info tool_args
  else if tool_name = "read_file" then module .read_file tool_args
  else if tool_name = "list_directory" then module .list_directory tool_args
  else if tool_name = "list_tree" then module .list_tree tool_args
  else if tool_name = "search_code" then module .search_code tool_args
  else .error ("Unknown tool: " ++ tool_name)

/-! ## The agentic loop (`ask`, __init__.py lines 214–332) -/

/-- One element of an assistant message's content list.  The loop only
distinguishes dict blocks (whose `"type"` and `"text"` fields it reads
with `.get`) from anything else. -/
inductive ContentBlock where
  | dict (btype : Option String) (text : Option String) : ContentBlock
  | nondict : ContentBlock
deriving DecidableEq, Repr

/-- Content of `message.content` as the loop inspects it: `None`, a plain string, or
a list of typed blocks. -/
inductive MsgContent where
  | noContent : MsgContent
  | str (s : String) : MsgContent
  | blocks (l : List ContentBlock) : MsgContent
deriving DecidableEq, Repr

/-- A tool-call request from the completion endpoint: an id, a function
name and a JSON-encoded argument string. -/
structure ToolCall where
  id : String
  name : String
  arguments : String
deriving DecidableEq, Repr

/-- A message of the conversation transcript (a Python dict with a
`role`, content, and optionally a `tool_call_id` or a `tool_calls`
list). -/
structure Message where
  role : String
  content : MsgContent
  tool_call_id : Option String := none
  tool_calls : List ToolCall := []
deriving DecidableEq, Repr

/-- One completion-endpoint response: optional content plus an optional
(possibly empty, modelled as a list) sequence of tool calls. -/
structure AssistantResponse where
  content : MsgContent
  tool_calls : List ToolCall
deriving DecidableEq, Repr

/-- The external world of one `ask` invocation:
  * `llm`:       the LiteLLM completion endpoint, mapping the transcript
                 to the next assistant response;
  * `module`:    the platform adapter's five HTTP operations;
  * `jsonLoads`: `json.loads` on a tool call's argument string (may raise);
  * `jsonDumps`: `json.dumps(·, indent=2)` serialization of a result;
  * `sched`:     the order in which the thread pool's `as_completed`
                 yields a round's tool results (indexed by the round). -/
structure Env where
  llm : List Message → AssistantResponse
  module : ToolOp → Args → Except String JValue
  jsonLoads : String → Except String Args
  jsonDumps : JValue → String
  sched : Nat → List Message → List Message

/-- The content list built for the appended assistant message
(__init__.py lines 279–286): a truthy string becomes one text block, a
truthy list is spliced in, `None`/falsy content contributes nothing. -/
def contentBlocksOf : MsgContent → List ContentBlock
  | .noContent => []
  | .str s => if s = "" then [] else [.dict (some "text") (some s)]
  | .blocks l => l

/-- The assistant message appended to the conversation for a response
(with its tool calls when present). -/
def assistantOf (resp : AssistantResponse) : Message :=
  { role := "assistant", content := .blocks (contentBlocksOf resp.content),
    tool_calls := resp.tool_calls }

/-- Terminal answer extraction (__init__.py lines 296–301): a string
content is returned as-is; a block list yields the `"text"` fields of
exactly its dict blocks whose `"type"` is `"text"` (missing `"text"`
fields default to `""`), joined with a single space; anything else
yields `""`. -/
def extractText : MsgContent → String
  | .str s => s
  | .blocks l =>
    " ".intercalate (l.filterMap fun b =>
      match b with
      | .dict btype text => if btype = some "text" then some (text.getD "") else none
      | .nondict => none)
  | .noContent => ""

/-- Function `execute_single_tool` from `ask`: decode the arguments, dispatch, and
serialize the result into a tool message; any exception (from
`json.loads` or from `execute_tool`, including adapter HTTP failures) is
caught and becomes a tool message whose content is an error text.  Always
returns a message carrying the request's `tool_call_id`. -/
def executeSingleTool (env : Env) (token default_ref : Option String)
    (tc : ToolCall) : Message :=
  match env.jsonLoads tc.arguments with
  | .ok arguments =>
    match execute_tool env.module tc.name arguments token default_ref with
    | .ok result =>
      { role := "tool", content := .str (env.jsonDumps result), tool_call_id := some tc.id }
    | .error e =>
      { role := "tool", content := .str ("Error executing tool: " ++ e),
        tool_call_id := some tc.id }
  | .error e =>
    { role := "tool", content := .str ("Error executing tool: " ++ e),
      tool_call_id := some tc.id }

/-- The tool messages appended in one round: every tool call of the
response is executed (in parallel in the source; each yields exactly one
message), and the messages are appended in the order `as_completed`
yields them, modelled by `env.sched`. -/
def roundReplies (env : Env) (token default_ref : Option String)
    (round : Nat) (resp : AssistantResponse) : List Message :=
  env.sched round (resp.tool_calls.map (executeSingleTool env token default_ref))

/-- The sentinel returned when the iteration budget is exhausted
(__init__.py line 332). -/
def exhaustedSentinel : String :=
  "Maximum iterations reached. Unable to provide a complete answer."

/-- The agentic loop of `ask` (__init__.py lines 269–332), by recursion
on the remaining iterations.  Returns the answer together with the number
of completion-endpoint calls made.  A response without tool calls is
terminal: its text is extracted and returned.  Otherwise the assistant
message and the round's tool replies are appended to the transcript
before the next round's completion call. -/
def askLoop (env : Env) (token default_ref : Option String) :
    Nat → List Message → String × Nat
  | 0, _ => (exhaustedSentinel, 0)
  | n + 1, messages =>
    let resp := env.llm messages
    if resp.tool_calls = [] then
      (extractText resp.content, 1)
    else
      let next := askLoop env token default_ref n
        (messages ++ [assistantOf resp] ++ roundReplies env token default_ref n resp)
      (next.1, next.2 + 1)

/-- The system prompt of `ask` (__init__.py lines 256–261). -/
def systemPrompt (platform_name owner repo ref : String) (max_workers : Nat) : String :=
  "Use " ++ platform_name ++ " API tools to answer the given questions by exploring and analyzing the repository "
    ++ owner ++ "/" ++ repo ++ " (branch: " ++ ref
    ++ "). Use the API tools like you would use filesystem tools to list and read files. You can execute up to "
    ++ toString max_workers
    ++ " tool calls in parallel - use this to your advantage by batching file reads and directory listings. When calling tools that accept a 'ref' parameter, you can omit it to use the default branch '"
    ++ ref
    ++ "', or specify a different branch/commit if needed. Call list_tree and get_repo_info first in parallel, and then use the list of files and directories to issue many read_file calls in parallel."

/-- Function `ask` from __init__.py, over the URL's path component (the
standard-library `urlparse` step is external): parse the URL, resolve the
token and the ref, seed the conversation with the system and user
messages, and run the loop.  `getRepoInfo` is the outcome the metadata
endpoint would give if called; `envToken` is the platform environment
variable's value.  Returns the answer, the number of completion calls and
the number of `get_repo_info` metadata calls; errors raised before the
loop propagate. -/
def ask (env : Env) (getRepoInfo : Except String RepoInfo) (envToken : Option String)
    (repo_path : String) (prompt : String) (max_iterations : Nat) (max_workers : Nat)
    (token github_token : Option String) (platform_name : String) :
    Except String (String × Nat × Nat) :=
  match parse_repo_url repo_path with
  | .error e => .error e
  | .ok (owner, repo, urlRef) =>
    let auth_token := get_auth_token token github_token envToken
    match get_ref getRepoInfo urlRef with
    | .error e => .error e
    | .ok (ref, infoCalls) =>
      let messages : List Message :=
        [ { role := "system", content := .str (systemPrompt platform_name owner repo ref max_workers) },
          { role := "user", content := .str prompt } ]
      let r := askLoop env auth_token (some ref) max_iterations messages
      .ok (r.1, r.2, infoCalls)

/-! ## Helper lemmas -/

theorem dictGet_replace_self {β : Type} (k : String) (v : β) :
    ∀ d : Dict β, dictHasKey k d = true →
      dictGet k (d.map (fun p => if p.1 = k then (k, v) else p)) = some v := by
  intro d
  induction d with
  | nil => intro h; simp [dictHasKey] at h
  | cons p t ih =>
    intro h
    by_cases hk : p.1 = k
    · simp [dictGet, hk]
    · have ht : dictHasKey k t = true := by
        simpa [dictHasKey, hk] using h
      simpa [dictGet, hk] using ih ht

theorem dictGet_replace_ne {β : Type} (k k' : String) (v : β) (hne : k' ≠ k) :
    ∀ d : Dict β,
      dictGet k' (d.map (fun p => if p.1 = k then (k, v) else p)) = dictGet k' d := by
  intro d
  induction d with
  | nil => simp [dictGet]
  | cons p t ih =>
    by_cases hk : p.1 = k
    · have hne' : ¬k = k' := fun h => hne h.symm
      simp [dictGet, hk, hne', ih]
    · simp [dictGet, hk, ih]

theorem dictGet_append_single_self {β : Type} (k : String) (v : β) :
    ∀ d : Dict β, dictHasKey k d = false →
      dictGet k (d ++ [(k, v)]) = some v := by
  intro d
  induction d with
  | nil => intro _; simp [dictGet]
  | cons p t ih =>
    intro h
    have hk : ¬p.1 = k := by
      intro hk; simp [dictHasKey, hk] at h
    have ht : dictHasKey k t = false := by
      simpa [dictHasKey, hk] using h
    simpa [dictGet, hk] using ih ht

theorem dictGet_append_single_ne {β : Type} (k k' : String) (v : β) (hne : k' ≠ k) :
    ∀ d : Dict β, dictGet k' (d ++ [(k, v)]) = dictGet k' d := by
  intro d
  induction d with
  | nil => have hne' : ¬k = k' := fun h => hne h.symm
           simp [dictGet, hne']
  | cons p t ih =>
    by_cases hk : p.1 = k'
    · simp [dictGet, hk]
    · simp [dictGet, hk, ih]

/-- Python `d[k] = v` makes `d[k]` retrievable as `v`. -/
theorem dictGet_dictSet_self {β : Type} (d : Dict β) (k : String) (v : β) :
    dictGet k (dictSet d k v) = some v := by
  unfold dictSet
  by_cases h : dictHasKey k d = true
  · simpa [h] using dictGet_replace_self k v d h
  · have h' : dictHasKey k d = false := by simpa using h
    simpa [h'] using dictGet_append_single_self k v d h'

/-- Python `d[k] = v` leaves every other key's value unchanged. -/
theorem dictGet_dictSet_ne {β : Type} (d : Dict β) (k k' : String) (v : β)
    (hne : k' ≠ k) : dictGet k' (dictSet d k v) = dictGet k' d := by
  unfold dictSet
  by_cases h : dictHasKey k d = true
  · simpa [h] using dictGet_replace_ne k k' v hne d
  · simpa [h] using dictGet_append_single_ne k k' v hne d

/-- Every tool reply is a `tool`-role message carrying its request's id,
whose content is either a serialized result or an error text. -/
theorem executeSingleTool_shape (env : Env) (token default_ref : Option String)
    (tc : ToolCall) :
    (executeSingleTool env token default_ref tc).role = "tool" ∧
    (executeSingleTool env token default_ref tc).tool_call_id = some tc.id ∧
    ((∃ r, (executeSingleTool env token default_ref tc).content = .str (env.jsonDumps r)) ∨
     (∃ e, (executeSingleTool env token default_ref tc).content =
        .str ("Error executing tool: " ++ e))) := by
  unfold executeSingleTool
  split
  · split
    · exact ⟨rfl, rfl, .inl ⟨_, rfl⟩⟩
    · exact ⟨rfl, rfl, .inr ⟨_, rfl⟩⟩
  · exact ⟨rfl, rfl, .inr ⟨_, rfl⟩⟩

/-- Unfolding of a loop round that has tool calls: the assistant message
and the round's replies are appended, then the next round runs. -/
theorem askLoop_succ_of_tool_calls (env : Env) (token default_ref : Option String)
    (n : Nat) (messages : List Message)
    (h : (env.llm messages).tool_calls ≠ []) :
    askLoop env token default_ref (n + 1) messages =
      ((askLoop env token default_ref n
          (messages ++ [assistantOf (env.llm messages)] ++
            roundReplies env token default_ref n (env.llm messages))).1,
       (askLoop env token default_ref n
          (messages ++ [assistantOf (env.llm messages)] ++
            roundReplies env token default_ref n (env.llm messages))).2 + 1) := by
  simp only [askLoop]
  rw [if_neg h]

/-- Unfolding of a terminal round (no tool calls): the loop returns the
extracted text after a single completion call. -/
theorem askLoop_succ_terminal (env : Env) (token default_ref : Option String)
    (n : Nat) (messages : List Message)
    (h : (env.llm messages).tool_calls = []) :
    askLoop env token default_ref (n + 1) messages =
      (extractText (env.llm messages).content, 1) := by
  simp only [askLoop]
  rw [if_pos h]

/-! ## Sample environments used by the witnesses -/

/-- A completion endpoint that always requests one `read_file` call, with
trivially succeeding collaborators. -/
def envToolLoop : Env where
  llm := fun _ => ⟨.noContent, [⟨"call_1", "read_file", "\x7b\x7d"⟩]⟩
  module := fun _ _ => .ok .null
  jsonLoads := fun _ => .ok []
  jsonDumps := fun _ => "null"
  sched := fun _ l => l

/-- A completion endpoint that immediately answers with content blocks
and no tool calls. -/
def envTerminal : Env where
  llm := fun _ => ⟨.blocks [.dict (some "text") (some "hello"), .nondict,
    .dict (some "img") (some "x"), .dict (some "text") (some "world")], []⟩
  module := fun _ _ => .ok .null
  jsonLoads := fun _ => .ok []
  jsonDumps := fun _ => "null"
  sched := fun _ l => l

/-- Collaborators whose JSON decoding always fails. -/
def envBadJson : Env where
  llm := fun _ => ⟨.noContent, []⟩
  module := fun _ _ => .error "404 Client Error"
  jsonLoads := fun _ => .error "Expecting value: line 1 column 1 (char 0)"
  jsonDumps := fun _ => "null"
  sched := fun _ l => l

/-! ## Claims -/

/-- C1. In short: In every round of the agent loop whose assistant response
contains tool-call requests, the loop appends the assistant message and
then exactly the round's tool replies to the conversation before the next
round's completion request; the number of appended tool messages equals
the number of requests, the replies' `tool_call_id`s are a permutation of
the requests' identifiers (no orphaned requests, no duplicate replies),
and each reply is a tool message carrying a serialized result or an error
text. -/
theorem every_request_answered_once (env : Env) (token default_ref : Option String)
    (n : Nat) (messages : List Message)
    (hsched : ∀ i l, (env.sched i l).Perm l)
    (h : (env.llm messages).tool_calls ≠ []) :
    askLoop env token default_ref (n + 1) messages =
      ((askLoop env token default_ref n
          (messages ++ [assistantOf (env.llm messages)] ++
            roundReplies env token default_ref n (env.llm messages))).1,
       (askLoop env token default_ref n
          (messages ++ [assistantOf (env.llm messages)] ++
            roundReplies env token default_ref n (env.llm messages))).2 + 1) ∧
    (roundReplies env token default_ref n (env.llm messages)).length =
      (env.llm messages).tool_calls.length ∧
    ((roundReplies env token default_ref n (env.llm messages)).map Message.tool_call_id).Perm
      ((env.llm messages).tool_calls.map (fun tc => some tc.id)) ∧
    ∀ m ∈ roundReplies env token default_ref n (env.llm messages),
      m.role = "tool" ∧
      ((∃ r, m.content = .str (env.jsonDumps r)) ∨
       (∃ e, m.content = .str ("Error executing tool: " ++ e))) := by
  refine ⟨askLoop_succ_of_tool_calls env token default_ref n messages h, ?_, ?_, ?_⟩
  · unfold roundReplies
    rw [(hsched n _).length_eq, List.length_map]
  · unfold roundReplies
    refine ((hsched n _).map Message.tool_call_id).trans ?_
    have hmap : List.map (Message.tool_call_id ∘ executeSingleTool env token default_ref)
        (env.llm messages).tool_calls =
        List.map (fun tc => some tc.id) (env.llm messages).tool_calls :=
      List.map_congr_left
        (fun tc _ => (executeSingleTool_shape env token default_ref tc).2.1)
    rw [List.map_map, hmap]
  · intro m hm
    unfold roundReplies at hm
    obtain ⟨tc, _, rfl⟩ := List.mem_map.mp ((hsched n _).mem_iff.mp hm)
    exact ⟨(executeSingleTool_shape env token default_ref tc).1,
      (executeSingleTool_shape env token default_ref tc).2.2⟩

/-- Witness for C1 on a concrete environment with one requested call. -/
theorem every_request_answered_once_witness :
    (roundReplies envToolLoop none (some "main") 0 (envToolLoop.llm [])).length =
      (envToolLoop.llm []).tool_calls.length :=
  (every_request_answered_once envToolLoop none (some "main") 0 []
    (fun _ l => List.Perm.refl l) (by decide)).2.1

/-- C2. In short: `execute_single_tool` never lets an exception escape: it
always produces a tool message carrying the request's identifier, and
when decoding the arguments or dispatching the tool raises (unknown tool,
HTTP failure, wrong-type path, malformed JSON), the message's content is
the error text; the loop then still proceeds to the next round. -/
theorem tool_failure_contained (env : Env) (token default_ref : Option String)
    (tc : ToolCall) :
    (executeSingleTool env token default_ref tc).role = "tool" ∧
    (executeSingleTool env token default_ref tc).tool_call_id = some tc.id ∧
    (∀ e, env.jsonLoads tc.arguments = .error e →
      (executeSingleTool env token default_ref tc).content =
        .str ("Error executing tool: " ++ e)) ∧
    (∀ args e, env.jsonLoads tc.arguments = .ok args →
      execute_tool env.module tc.name args token default_ref = .error e →
      (executeSingleTool env token default_ref tc).content =
        .str ("Error executing tool: " ++ e)) ∧
    (∀ n messages, (env.llm messages).tool_calls ≠ [] →
      askLoop env token default_ref (n + 1) messages =
        ((askLoop env token default_ref n
            (messages ++ [assistantOf (env.llm messages)] ++
              roundReplies env token default_ref n (env.llm messages))).1,
         (askLoop env token default_ref n
            (messages ++ [assistantOf (env.llm messages)] ++
              roundReplies env token default_ref n (env.llm messages))).2 + 1)) := by
  refine ⟨(executeSingleTool_shape env token default_ref tc).1,
    (executeSingleTool_shape env token default_ref tc).2.1, ?_, ?_, ?_⟩
  · intro e he
    simp [executeSingleTool, he]
  · intro args e hargs hexec
    simp [executeSingleTool, hargs, hexec]
  · intro n messages hmsg
    exact askLoop_succ_of_tool_calls env token default_ref n messages hmsg

/-- Witness for C2: a failing JSON decode yields an error-text message. -/
theorem tool_failure_contained_witness :
    (executeSingleTool envBadJson none none ⟨"call_9", "read_file", "not json"⟩).content =
      .str ("Error executing tool: " ++ "Expecting value: line 1 column 1 (char 0)") :=
  (tool_failure_contained envBadJson none none ⟨"call_9", "read_file", "not json"⟩).2.2.1
    "Expecting value: line 1 column 1 (char 0)" rfl

/-- C3. In short: With `max_iterations = 0` the loop returns the exhaustion
sentinel with zero completion calls (and `ask` as a whole returns it as a
normal value once resolution succeeds); and whenever every assistant
response keeps requesting tools, any iteration budget ends with the same
sentinel returned normally. -/
theorem iteration_budget_sentinel (env : Env) (token default_ref : Option String) :
    (∀ messages, askLoop env token default_ref 0 messages = (exhaustedSentinel, 0)) ∧
    (∀ getRepoInfo envToken repo_path prompt max_workers tok gtok pname owner repo
        urlRef ref infoCalls,
      parse_repo_url repo_path = .ok (owner, repo, urlRef) →
      get_ref getRepoInfo urlRef = .ok (ref, infoCalls) →
      ask env getRepoInfo envToken repo_path prompt 0 max_workers tok gtok pname =
        .ok (exhaustedSentinel, 0, infoCalls)) ∧
    (∀ n messages, (∀ ms, (env.llm ms).tool_calls ≠ []) →
      (askLoop env token default_ref n messages).1 = exhaustedSentinel) := by
  refine ⟨fun _ => rfl, ?_, ?_⟩
  · intro getRepoInfo envToken repo_path prompt max_workers tok gtok pname owner repo
      urlRef ref infoCalls hparse href
    simp only [ask, hparse, href, askLoop]
  · intro n
    induction n with
    | zero => intro messages _; rfl
    | succ n ih =>
      intro messages hall
      rw [askLoop_succ_of_tool_calls env token default_ref n messages (hall messages)]
      exact ih _ hall

/-- Witness for C3 on a concrete always-requesting environment. -/
theorem iteration_budget_sentinel_witness :
    (askLoop envToolLoop none (some "main") 3 []).1 = exhaustedSentinel :=
  (iteration_budget_sentinel envToolLoop none (some "main")).2.2 3 []
    (fun _ => by simp [envToolLoop])

/-- C4. In short: A response without tool calls terminates the loop after its
single completion call, returning: the content itself for string content;
the space-joined `text` fields of exactly the `text`-typed dict blocks
for block-list content; and the empty string for empty content. -/
theorem terminal_answer_extraction (env : Env) (token default_ref : Option String)
    (n : Nat) (messages : List Message)
    (h : (env.llm messages).tool_calls = []) :
    (askLoop env token default_ref (n + 1) messages).2 = 1 ∧
    (∀ s, (env.llm messages).content = .str s →
      (askLoop env token default_ref (n + 1) messages).1 = s) ∧
    (∀ l, (env.llm messages).content = .blocks l →
      (askLoop env token default_ref (n + 1) messages).1 =
        " ".intercalate (l.filterMap fun b =>
          match b with
          | .dict btype text => if btype = some "text" then some (text.getD "") else none
          | .nondict => none)) ∧
    ((env.llm messages).content = .noContent →
      (askLoop env token default_ref (n + 1) messages).1 = "") := by
  rw [askLoop_succ_terminal env token default_ref n messages h]
  refine ⟨rfl, ?_, ?_, ?_⟩
  · intro s hc; rw [hc]; rfl
  · intro l hc; rw [hc]; simp [extractText]
  · intro hc; rw [hc]; rfl

/-- Witness for C4: block-list content joined with single spaces. -/
theorem terminal_answer_extraction_witness :
    (askLoop envTerminal none none 1 []).1 =
      " ".intercalate (([.dict (some "text") (some "hello"), .nondict,
        .dict (some "img") (some "x"), .dict (some "text") (some "world")] :
          List ContentBlock).filterMap fun b =>
        match b with
        | .dict btype text => if btype = some "text" then some (text.getD "") else none
        | .nondict => none) :=
  (terminal_answer_extraction envTerminal none none 0 [] rfl).2.2.1 _ rfl

/-- C5. In short: A repository URL with an explicit `tree`/`blob`/`commit` ref
segment resolves to that segment and triggers no default-branch metadata
lookup; a URL without one triggers exactly one `get_repo_info` call whose
reported default branch becomes the resolved ref, which is then injected
into every subsequent tool call that omits an explicit ref. -/
theorem ref_resolution :
    (∀ (path owner repo kind refseg : String) (rest : List String),
      (splitOnSlash (stripSlashes path.toList)).map String.mk =
        owner :: repo :: kind :: refseg :: rest →
      (kind = "tree" ∨ kind = "blob" ∨ kind = "commit") →
      parse_repo_url path = .ok (owner, repo, some refseg)) ∧
    (∀ (getRepoInfo : Except String RepoInfo) (r : String),
      get_ref getRepoInfo (some r) = .ok (r, 0)) ∧
    (∀ (info : RepoInfo) (b : String), info.default_branch = some b →
      get_ref (.ok info) none = .ok (b, 1)) ∧
    (∀ (b tool_name : String) (arguments : Args) (token : Option String),
      tool_name ∈ toolsWithRef → dictHasKey "ref" arguments = false → b ≠ "" →
      dictGet "ref" (buildToolArgs tool_name arguments token (some b)) =
        some (.str b)) := by
  refine ⟨?_, fun _ _ => rfl, ?_, ?_⟩
  · intro path owner repo kind refseg rest hsplit hkind
    unfold parse_repo_url
    rw [hsplit]
    rcases hkind with h | h | h <;> simp [h]
  · intro info b hb
    simp [get_ref, hb]
  · intro b tool_name arguments token htool href hb
    have hcond : tool_name ∈ toolsWithRef ∧ dictHasKey "ref" arguments = false ∧
        truthyStr (some b) = true := by
      refine ⟨htool, href, ?_⟩
      simp [truthyStr, hb]
    simp only [buildToolArgs]
    rw [if_pos hcond]
    simpa using dictGet_dictSet_self _ "ref" _

/-- Witness for C5 on a concrete URL path and metadata outcome. -/
theorem ref_resolution_witness :
    parse_repo_url "/octo/hello/tree/dev" = .ok ("octo", "hello", some "dev") ∧
    get_ref (.error "network unreachable") (some "dev") = .ok ("dev", 0) ∧
    get_ref (.ok ⟨some "develop"⟩) none = .ok ("develop", 1) ∧
    dictGet "ref" (buildToolArgs "read_file" [] none (some "develop")) =
      some (.str "develop") :=
  ⟨ref_resolution.1 "/octo/hello/tree/dev" "octo" "hello" "tree" "dev" [] (by decide)
      (Or.inl rfl),
   ref_resolution.2.1 (.error "network unreachable") "dev",
   ref_resolution.2.2.1 ⟨some "develop"⟩ "develop" rfl,
   ref_resolution.2.2.2 "develop" "read_file" [] none (by decide) rfl (by decide)⟩

/-- C6, divergence at the failing input: `--llm-temperature 0.5 --llm-max-tokens 4000`
parses `0.5` as a float and `4000` as an int, but the second override is
recorded under the key `"max-tokens"` — the flag text after `--llm-` with
its hyphen preserved — so the parsed configuration holds no `max_tokens`
key at all. -/
theorem llm_passthrough_hyphen_key :
    parse_llm_args ["--llm-temperature", "0.5", "--llm-max-tokens", "4000"] =
      .ok ([], [("temperature", .float (mkRat 1 2)), ("max-tokens", .int 4000)]) ∧
    dictGet "max_tokens"
      ([("temperature", LlmValue.float (mkRat 1 2)), ("max-tokens", .int 4000)] :
        LlmConfig) = none ∧
    dictGet "max-tokens"
      ([("temperature", LlmValue.float (mkRat 1 2)), ("max-tokens", .int 4000)] :
        LlmConfig) = some (.int 4000) :=
  ⟨rfl, rfl, rfl⟩

/-- C7. In short: Before dispatch, the argument-defaulting step always sets
`github_token` to the resolved token; exactly for the three ref-accepting
tools, when the model omitted the `ref` key (and the default ref is
truthy), it injects the resolved ref; every other model-supplied argument
is passed through unchanged. -/
theorem dispatcher_arg_defaulting (tool_name : String) (arguments : Args)
    (token default_ref : Option String) :
    dictGet "github_token" (buildToolArgs tool_name arguments token default_ref) =
      some (tokenVal token) ∧
    (tool_name ∈ toolsWithRef → dictHasKey "ref" arguments = false →
      truthyStr default_ref = true →
      dictGet "ref" (buildToolArgs tool_name arguments token default_ref) =
        some (.str (default_ref.getD ""))) ∧
    (tool_name ∉ toolsWithRef →
      dictGet "ref" (buildToolArgs tool_name arguments token default_ref) =
        dictGet "ref" arguments) ∧
    (∀ k, k ≠ "github_token" →
      ¬(k = "ref" ∧ tool_name ∈ toolsWithRef ∧ dictHasKey "ref" arguments = false ∧
          truthyStr default_ref = true) →
      dictGet k (buildToolArgs tool_name arguments token default_ref) =
        dictGet k arguments) := by
  have hgr : ("github_token" : String) ≠ "ref" := by decide
  refine ⟨?_, ?_, ?_, ?_⟩
  · simp only [buildToolArgs]
    split
    · rw [dictGet_dictSet_ne _ _ _ _ hgr]
      exact dictGet_dictSet_self _ _ _
    · exact dictGet_dictSet_self _ _ _
  · intro htool href htruthy
    simp only [buildToolArgs]
    rw [if_pos ⟨htool, href, htruthy⟩]
    exact dictGet_dictSet_self _ _ _
  · intro htool
    simp only [buildToolArgs]
    rw [if_neg (fun hcond => htool hcond.1)]
    exact dictGet_dictSet_ne _ _ _ _ hgr.symm
  · intro k hk hnot
    simp only [buildToolArgs]
    split
    · next hcond =>
      have hkr : k ≠ "ref" := fun hkr => hnot ⟨hkr, hcond⟩
      rw [dictGet_dictSet_ne _ _ _ _ hkr]
      exact dictGet_dictSet_ne _ _ _ _ hk
    · exact dictGet_dictSet_ne _ _ _ _ hk

/-- Witness for C7 on a concrete `read_file` call omitting `ref`. -/
theorem dispatcher_arg_defaulting_witness :
    dictGet "github_token"
        (buildToolArgs "read_file" [("path", .str "README.md")] (some "tok123")
          (some "main")) = some (tokenVal (some "tok123")) ∧
    dictGet "ref"
        (buildToolArgs "read_file" [("path", .str "README.md")] (some "tok123")
          (some "main")) = some (.str ((some "main").getD "")) ∧
    dictGet "path"
        (buildToolArgs "read_file" [("path", .str "README.md")] (some "tok123")
          (some "main")) = dictGet "path" [("path", JValue.str "README.md")] :=
  ⟨(dispatcher_arg_defaulting "read_file" [("path", .str "README.md")] (some "tok123")
      (some "main")).1,
   (dispatcher_arg_defaulting "read_file" [("path", .str "README.md")] (some "tok123")
      (some "main")).2.1 (by decide) rfl (by decide),
   (dispatcher_arg_defaulting "read_file" [("path", .str "README.md")] (some "tok123")
      (some "main")).2.2.2 "path" (by decide) (by decide)⟩

/-- C8. In short: A tool name outside the five fixed operations makes
`execute_tool` fail with the `Unknown tool` error naming the tool, with no
platform-adapter call (the outcome is independent of the adapter); each of
the five fixed names dispatches to the platform operation of the same
name, on the defaulted arguments. -/
theorem unknown_tool_rejected (tool_name : String) (arguments : Args)
    (token default_ref : Option String)
    (module module' : ToolOp → Args → Except String JValue) :
    (tool_name ∉ ["get_repo_info", "read_file", "list_directory", "list_tree",
        "search_code"] →
      execute_tool module tool_name arguments token default_ref =
        .error ("Unknown tool: " ++ tool_name) ∧
      execute_tool module tool_name arguments token default_ref =
        execute_tool module' tool_name arguments token default_ref) ∧
    execute_tool module "get_repo_info" arguments token default_ref =
      module .get_repo_info (buildToolArgs "get_repo_info" arguments token default_ref) ∧
    execute_tool module "read_file" arguments token default_ref =
      module .read_file (buildToolArgs "read_file" arguments token default_ref) ∧
    execute_tool module "list_directory" arguments token default_ref =
      module .list_directory (buildToolArgs "list_directory" arguments token default_ref) ∧
    execute_tool module "list_tree" arguments token default_ref =
      module .list_tree (buildToolArgs "list_tree" arguments token default_ref) ∧
    execute_tool module "search_code" arguments token default_ref =
      module .search_code (buildToolArgs "search_code" arguments token default_ref) := by
  refine ⟨?_, rfl, rfl, rfl, rfl, rfl⟩
  intro h
  simp only [List.mem_cons, List.not_mem_nil, or_false, not_or] at h
  obtain ⟨h1, h2, h3, h4, h5⟩ := h
  constructor <;> simp [execute_tool, h1, h2, h3, h4, h5]

/-- Witness for C8 on a made-up tool name. -/
theorem unknown_tool_rejected_witness :
    execute_tool (fun _ _ => .ok .null) "frobnicate" [] none none =
      .error ("Unknown tool: " ++ "frobnicate") :=
  ((unknown_tool_rejected "frobnicate" [] none none (fun _ _ => .ok .null)
      (fun _ _ => .error "x")).1 (by decide)).1

/-- C9. In short: The value `1-2` passes the numeric-detection test of
`parse_llm_args` (removing one `.` and one `-` leaves only digits) yet is
not a valid integer literal, so `int()` raises `ValueError` and
`parse_llm_args` propagates the error instead of forwarding the value as
a string. -/
theorem numeric_detection_mismatch_raises :
    numericTest "1-2" = true ∧
    pyInt "1-2" = .error ("invalid literal for int() with base 10: " ++ "1-2") ∧
    parse_llm_args ["--llm-n", "1-2"] =
      .error ("invalid literal for int() with base 10: " ++ "1-2") :=
  ⟨rfl, rfl, rfl⟩

/-- C10. In short: A `--llm-<key>` flag that is the last argument, or is
followed by an argument starting with `--`, records `<key>` with the
boolean value `True`, consumes only the flag itself, and leaves the
following argument (if any) to be parsed normally. -/
theorem llm_flag_without_value (arg : String) (rest filtered : List String)
    (config : LlmConfig)
    (h : pyStartswith arg "--llm-" = true)
    (h2 : rest = [] ∨ ∃ v vs, rest = v :: vs ∧ pyStartswith v "--" = true) :
    parseLlmArgsGo (arg :: rest) filtered config =
      parseLlmArgsGo rest filtered
        (dictSet config (pyDropChars 6 arg) (.bool true)) := by
  rcases h2 with rfl | ⟨v, vs, rfl, hv⟩
  · simp [parseLlmArgsGo, h]
  · simp [parseLlmArgsGo, h, hv]

/-- Witness for C10: `--llm-verbose` followed by `--token`. -/
theorem llm_flag_without_value_witness :
    parseLlmArgsGo ["--llm-verbose", "--token"] [] [] =
      parseLlmArgsGo ["--token"] []
        (dictSet [] (pyDropChars 6 "--llm-verbose") (.bool true)) :=
  llm_flag_without_value "--llm-verbose" ["--token"] [] [] (by decide)
    (Or.inr ⟨"--token", [], rfl, by decide⟩)

end AskGithub
